import Mathlib

/-!
Shallow embedding of the Backstage permission-vocabulary fragment
(src/unnamed/part_000) and of the ComponentsApi definition
(src/packages/frontend-plugin-api/src/apis/definitions/ComponentsApi.ts),
with theorems settling the frozen claims about them.

Modelling conventions:
- TypeScript optional fields become Option.
- TypeScript string-literal-typed fields (such as the `type` discriminator,
  whose only value is the literal) become subtypes of String.
- The generic zod schema type `z.ZodSchema<TParams>` and the externally
  defined request/response types are abstracted as type parameters, since
  their structure never matters to the claims.
- A Promise-returning call is modelled as an Except value: either the whole
  batch resolves or the whole call fails, as the spec states.
- TypeScript structural subtyping (a caller may pass an object with more
  properties than the parameter type lists) is modelled by an `extra` field
  of arbitrary type on the input record.
-/

namespace Backstage

/-- Modelled from the spec: `PolicyDecision` is an external type (imported
from `./api`, not part of this fragment) representing an allow/deny,
possibly conditional, outcome. -/
inductive PolicyDecision where
  | allow
  | deny
  | conditional
deriving DecidableEq

/-- Embedding of the literal union `'create' | 'read' | 'update' | 'delete'`
from `PermissionAttributes.action` (src/unnamed/part_000 lines 31-33). -/
inductive Action where
  | create
  | read
  | update
  | delete
deriving DecidableEq

/-- The literal string each `Action` value denotes in TypeScript. -/
def Action.toLiteral : Action → String
  | .create => "create"
  | .read => "read"
  | .update => "update"
  | .delete => "delete"

/-- Embedding of `PermissionAttributes` (src/unnamed/part_000 lines 31-33):
a record with a single optional `action` field over the four CRUD literals. -/
structure PermissionAttributes where
  action : Option Action
deriving DecidableEq

/-- Embedding of `BasicPermission = PermissionBase<'basic', {}>`
(src/unnamed/part_000 line 81): the common `PermissionBase` fields with the
`type` discriminator fixed to the literal `'basic'` and no extra fields. -/
structure BasicPermission where
  name : String
  attributes : PermissionAttributes
  defaultDecision : Option PolicyDecision
  type : { s : String // s = "basic" }

/-- Embedding of `ResourcePermission<TResourceType> = PermissionBase<'resource',
\x7bresourceType: TResourceType\x7d>` (src/unnamed/part_000 lines 88-98): the common
fields, `type` fixed to the literal `'resource'`, plus `resourceType`. -/
structure ResourcePermission (TResourceType : Type) where
  name : String
  attributes : PermissionAttributes
  defaultDecision : Option PolicyDecision
  type : { s : String // s = "resource" }
  resourceType : TResourceType

/-- Embedding of the tagged union `Permission = BasicPermission |
ResourcePermission` (src/unnamed/part_000 line 75). -/
def Permission : Type := BasicPermission ⊕ ResourcePermission String

/-- Embedding of `AuthorizeRequestOptions` (src/unnamed/part_000 lines
116-118): an optional opaque bearer token. -/
structure AuthorizeRequestOptions where
  token : Option String

/-- Embedding of the `PermissionAuthorizer` interface (src/unnamed/part_000
lines 105-110). `EvaluatePermissionRequest` and `EvaluatePermissionResponse`
are external types, abstracted as `Req` and `Resp`; the returned Promise is
modelled as `Except E`: the whole batch resolves or the whole call fails. -/
structure PermissionAuthorizer (Req Resp E : Type) where
  authorize : List Req → Option AuthorizeRequestOptions → Except E (List Resp)

/-- Modelled from the spec: no implementation of `PermissionAuthorizer` is in
this fragment (only the interface declaration is). The spec describes the
conforming behaviour via a stub backend that decides each request
independently and answers the batch in request order, so that the response
at index i originates from the request at index i. -/
def stubAuthorizer (Req Resp E : Type) (decideOne : Req → Resp) :
    PermissionAuthorizer Req Resp E where
  authorize := fun requests _ => Except.ok (requests.map decideOne)

/-- Embedding of `PermissionRuleDefinition<TResourceType, TParams>`
(src/unnamed/part_000 lines 129-141). The zod schema type
`z.ZodSchema<TParams>` is abstracted as the parameter `S`; the optional
`paramsSchema` field becomes `Option S`. -/
structure PermissionRuleDefinition (R S : Type) where
  name : String
  description : String
  resourceType : R
  paramsSchema : Option S

/-- Embedding of the anonymous parameter record of
`createPermissionRuleDefinition` (src/unnamed/part_000 lines 156-160). The
`extra` field models TypeScript structural subtyping: a caller may pass an
object carrying additional properties beyond the four listed ones;
instantiating `E` with `Unit` gives exactly the four-field record. -/
structure RuleDefinitionInput (R S E : Type) where
  name : String
  description : String
  resourceType : R
  paramsSchema : Option S
  extra : E

/-- Embedding of `createPermissionRuleDefinition` (src/unnamed/part_000 lines
148-166): destructures the four listed fields of its argument and returns a
fresh object literal holding exactly them. -/
def createPermissionRuleDefinition {R S E : Type} (input : RuleDefinitionInput R S E) :
    PermissionRuleDefinition R S where
  name := input.name
  description := input.description
  resourceType := input.resourceType
  paramsSchema := input.paramsSchema

/-- Coercion witnessing that, by TypeScript structural subtyping, a
`PermissionRuleDefinition` value is itself a valid argument to
`createPermissionRuleDefinition` (it has the four fields and no extras). -/
def PermissionRuleDefinition.toInput {R S : Type} (d : PermissionRuleDefinition R S) :
    RuleDefinitionInput R S Unit where
  name := d.name
  description := d.description
  resourceType := d.resourceType
  paramsSchema := d.paramsSchema
  extra := ()

/-- View of a freshly built `PermissionRuleDefinition` as a heap object of
rule-definition shape; `extra := none` records that the returned object
literal carries no properties beyond the four listed ones. -/
def PermissionRuleDefinition.asObject {R S E : Type} (d : PermissionRuleDefinition R S) :
    RuleDefinitionInput R S (Option E) where
  name := d.name
  description := d.description
  resourceType := d.resourceType
  paramsSchema := d.paramsSchema
  extra := none

/-- Reference-level model of a call to `createPermissionRuleDefinition`:
JavaScript objects live at numeric references into a heap (a list of
allocated objects). The call reads the fields of the argument object `arg`
and allocates a fresh object literal at the end of the heap, returning the
new heap and the reference to the freshly allocated result. -/
def createPermissionRuleDefinitionRef {R S E : Type}
    (heap : List (RuleDefinitionInput R S (Option E))) (arg : Nat)
    (ha : arg < heap.length) :
    List (RuleDefinitionInput R S (Option E)) × Nat :=
  (heap ++ [(createPermissionRuleDefinition (heap.get ⟨arg, ha⟩)).asObject], heap.length)

/-- Modelled from the spec: `PermissionCondition` is an external type (from
the permission-common package) consisting of a reference to a named rule
plus bound parameters, against a resource type. -/
structure PermissionCondition (R P : Type) where
  rule : String
  resourceType : R
  params : P

/-- Codes for the fragment of TypeScript types that can instantiate the
`TParams` position of a rule: a parameter record type alone, the union of a
parameter record type with `undefined`, or `undefined` alone. -/
inductive TSParamTy where
  | just (P : Type)
  | orUndefined (P : Type)
  | undef

/-- Lean denotation of a `TSParamTy` code: a union with `undefined` becomes
an Option, and the type `undefined` (with its single value) becomes Unit. -/
def TSParamTy.denote : TSParamTy → Type
  | .just P => P
  | .orUndefined P => Option P
  | .undef => Unit

/-- Whether `undefined extends TParams` holds for the coded type, the
condition tested by the conditional type `Condition`. -/
def TSParamTy.admitsUndefined : TSParamTy → Bool
  | .just _ => false
  | .orUndefined _ => true
  | .undef => true

/-- Embedding of the conditional type `Condition<TRule>` (src/unnamed/part_000
lines 174-181) at a rule `PermissionRuleDefinition<R, TParams>`: when
`undefined extends TParams` the constructor is nullary (a TypeScript
`() => X` is modelled as `Unit → X`), otherwise it requires the parameters
object. -/
def Condition (R : Type) (TParams : TSParamTy) : Type :=
  if TParams.admitsUndefined then
    Unit → PermissionCondition R TParams.denote
  else
    TParams.denote → PermissionCondition R TParams.denote

/-- Modelled from the spec: the external `createApiRef` mechanism takes a
configuration holding a fixed string identifier. -/
structure ApiRefConfig where
  id : String

/-- Modelled from the spec: an `ApiRef` is a strongly-typed, string-keyed
handle used to retrieve a singleton capability implementation from a
process-wide registry; `T` is a phantom type parameter. -/
structure ApiRef (T : Type 1) where
  id : String

/-- Modelled from the spec: `createApiRef` (imported from `../system`, not in
this fragment) builds the canonical `ApiRef` for `T` keyed by the identifier
in the configuration. -/
def createApiRef (T : Type 1) (config : ApiRefConfig) : ApiRef T where
  id := config.id

/-- Modelled from the spec: `ComponentRef<T>` is an opaque, compile-time-only
token identifying a capability type `T`, carrying no runtime payload in this
fragment. -/
structure ComponentRef (T : Type) : Type where
  token : Unit

/-- Embedding of the `ComponentsApi` interface
(src/packages/frontend-plugin-api/src/apis/definitions/ComponentsApi.ts
lines 25-28): a single method mapping a typed component ref to an instance
of the referenced type. -/
structure ComponentsApi : Type 1 where
  getComponent : (T : Type) → ComponentRef T → T

/-- Embedding of `componentsApiRef`
(src/packages/frontend-plugin-api/src/apis/definitions/ComponentsApi.ts
lines 35-37): the `ApiRef` of `ComponentsApi`, created via `createApiRef`
with the fixed id string. -/
def componentsApiRef : ApiRef ComponentsApi :=
  createApiRef ComponentsApi { id := "core.components" }

/-- Concrete `BasicPermission` used by witnesses. -/
def basicExample : BasicPermission where
  name := "example.read"
  attributes := { action := some .read }
  defaultDecision := none
  type := ⟨"basic", rfl⟩

/-- Concrete `ResourcePermission` used by witnesses. -/
def resourceExample : ResourcePermission String where
  name := "catalog.entity.read"
  attributes := { action := some .read }
  defaultDecision := none
  type := ⟨"resource", rfl⟩
  resourceType := "catalog-entity"

/-- Concrete rule-definition input used by witnesses; `extra := none` means
it carries no properties beyond the four listed ones. -/
def inputExample : RuleDefinitionInput String Unit (Option Unit) where
  name := "n"
  description := "d"
  resourceType := "catalog-entity"
  paramsSchema := none
  extra := none

/-- Concrete four-field rule-definition input used by witnesses. -/
def plainInputExample : RuleDefinitionInput String Unit Unit where
  name := "n"
  description := "d"
  resourceType := "catalog-entity"
  paramsSchema := none
  extra := ()

/-- C1: createPermissionRuleDefinition returns a PermissionRuleDefinition
with exactly the field values of its input record; in particular, on
input (name n, description d, resourceType catalog-entity, no paramsSchema)
it returns exactly that record with paramsSchema empty. -/
theorem createPermissionRuleDefinition_exact_fields :
    (∀ (R S E : Type) (x : RuleDefinitionInput R S E),
        createPermissionRuleDefinition x =
          { name := x.name, description := x.description,
            resourceType := x.resourceType, paramsSchema := x.paramsSchema }) ∧
    createPermissionRuleDefinition plainInputExample =
      { name := "n", description := "d", resourceType := "catalog-entity",
        paramsSchema := (none : Option Unit) } :=
  ⟨fun _ _ _ _ => rfl, rfl⟩

/-- C2: when authorize resolves, the response list has the same length as the
request list and the decision at index i originates from the request at
index i, shown against the spec-modelled stub backend that tags each
response with its originating request. -/
theorem authorize_positional_alignment (Req Resp E : Type) (decideOne : Req → Resp)
    (reqs : List Req) (opts : Option AuthorizeRequestOptions) (resps : List Resp)
    (h : (stubAuthorizer Req Resp E decideOne).authorize reqs opts = Except.ok resps) :
    resps.length = reqs.length ∧
    ∀ i : Nat, resps[i]? = (reqs[i]?).map decideOne := by
  have hresps : resps = reqs.map decideOne := by
    simpa [stubAuthorizer] using h.symm
  subst hresps
  exact ⟨List.length_map _ _, fun i => List.getElem?_map decideOne reqs i⟩

/-- Witness for C2 at a concrete batch of two requests. -/
theorem authorize_positional_alignment_witness :
    ([11, 21] : List Nat).length = ([10, 20] : List Nat).length ∧
    ∀ i : Nat, ([11, 21] : List Nat)[i]? = (([10, 20] : List Nat)[i]?).map (fun n => n + 1) :=
  authorize_positional_alignment Nat Nat Unit (fun n => n + 1) [10, 20] none [11, 21] rfl

/-- C3: every ResourcePermission has discriminator value "resource" (and its
resourceType projection lands in the type parameter X, as the statement of
the second conjunct shows), every BasicPermission has discriminator value
"basic", and a BasicPermission is fully determined by its name, attributes
and defaultDecision: it carries no further field, in particular no
resourceType. -/
theorem permission_discriminator_invariant (X : Type) :
    (∀ r : ResourcePermission X, r.type.val = "resource" ∧ r.resourceType ∈ (Set.univ : Set X)) ∧
    (∀ b : BasicPermission, b.type.val = "basic") ∧
    (∀ b b' : BasicPermission, b.name = b'.name → b.attributes = b'.attributes →
      b.defaultDecision = b'.defaultDecision → b = b') := by
  refine ⟨fun r => ⟨r.type.property, Set.mem_univ _⟩, fun b => b.type.property, ?_⟩
  rintro ⟨n, a, d, t⟩ ⟨n', a', d', t'⟩ hn ha hd
  cases hn; cases ha; cases hd
  cases Subtype.ext (t.property.trans t'.property.symm)
  rfl

/-- Witness for C3 at concrete basic and resource permissions. -/
theorem permission_discriminator_invariant_witness :
    (resourceExample.type.val = "resource" ∧
      resourceExample.resourceType ∈ (Set.univ : Set String)) ∧
    basicExample.type.val = "basic" ∧ basicExample = basicExample :=
  ⟨(permission_discriminator_invariant String).1 resourceExample,
   (permission_discriminator_invariant String).2.1 basicExample,
   (permission_discriminator_invariant String).2.2 basicExample basicExample rfl rfl rfl⟩

/-- C4: componentsApiRef is created via createApiRef with exactly the fixed
string identifier "core.components" as its id. -/
theorem componentsApiRef_id :
    componentsApiRef = createApiRef ComponentsApi { id := "core.components" } ∧
    componentsApiRef.id = "core.components" :=
  ⟨rfl, rfl⟩

/-- C5: createPermissionRuleDefinition is a pure, deterministic, total
construction: equal inputs yield equal results (and the function is modelled
as a plain total function, so it has no side effects and never fails), and a
present paramsSchema is stored in the result unchanged, not checked. -/
theorem createPermissionRuleDefinition_pure (R S E : Type)
    (x y : RuleDefinitionInput R S E) (h : x = y) :
    createPermissionRuleDefinition x = createPermissionRuleDefinition y ∧
    (createPermissionRuleDefinition x).paramsSchema = x.paramsSchema :=
  ⟨congrArg createPermissionRuleDefinition h, rfl⟩

/-- Witness for C5 at a concrete input. -/
theorem createPermissionRuleDefinition_pure_witness :
    createPermissionRuleDefinition plainInputExample =
      createPermissionRuleDefinition plainInputExample ∧
    (createPermissionRuleDefinition plainInputExample).paramsSchema =
      plainInputExample.paramsSchema :=
  createPermissionRuleDefinition_pure String Unit Unit plainInputExample plainInputExample rfl

/-- C6: for a rule whose parameter type admits undefined, the Condition
constructor is nullary; otherwise it requires the parameters object. -/
theorem condition_arity (R : Type) (TParams : TSParamTy) :
    (TParams.admitsUndefined = true →
      Condition R TParams = (Unit → PermissionCondition R TParams.denote)) ∧
    (TParams.admitsUndefined = false →
      Condition R TParams = (TParams.denote → PermissionCondition R TParams.denote)) := by
  cases TParams with
  | just P => exact ⟨fun h => (nomatch h), fun _ => rfl⟩
  | orUndefined P => exact ⟨fun _ => rfl, fun h => (nomatch h)⟩
  | undef => exact ⟨fun _ => rfl, fun h => (nomatch h)⟩

/-- Witness for C6 at the parameter types undefined and Nat. -/
theorem condition_arity_witness :
    Condition String TSParamTy.undef =
      (Unit → PermissionCondition String TSParamTy.undef.denote) ∧
    Condition String (TSParamTy.just Nat) =
      (Nat → PermissionCondition String (TSParamTy.just Nat).denote) :=
  ⟨(condition_arity String TSParamTy.undef).1 rfl,
   (condition_arity String (TSParamTy.just Nat)).2 rfl⟩

/-- C7: a present PermissionAttributes.action value is one of the four
constructors, whose literal strings are exactly create, read, update and
delete; the inductive has no further constructor, so no other value is a
legal action. -/
theorem action_in_crud_set (a : PermissionAttributes) (act : Action)
    (h : a.action = some act) :
    (act = Action.create ∨ act = Action.read ∨ act = Action.update ∨ act = Action.delete) ∧
    act.toLiteral ∈ (["create", "read", "update", "delete"] : List String) := by
  cases act <;> simp [Action.toLiteral]

/-- Witness for C7 at concrete attributes carrying the read action. -/
theorem action_in_crud_set_witness :
    (Action.read = Action.create ∨ Action.read = Action.read ∨
      Action.read = Action.update ∨ Action.read = Action.delete) ∧
    Action.read.toLiteral ∈ (["create", "read", "update", "delete"] : List String) :=
  action_in_crud_set basicExample.attributes Action.read rfl

/-- C8: createPermissionRuleDefinition is idempotent: applying it to its own
output (read back as an input record via structural subtyping) returns an
object equal to that output. -/
theorem createPermissionRuleDefinition_idempotent :
    ∀ (R S E : Type) (x : RuleDefinitionInput R S E),
      createPermissionRuleDefinition (createPermissionRuleDefinition x).toInput =
        createPermissionRuleDefinition x :=
  fun _ _ _ _ => rfl

/-- C9: the result of createPermissionRuleDefinition has only the four fields
name, description, resourceType and paramsSchema, and is independent of any
extra properties on the input: two inputs agreeing on the four fields, even
with extras of different types, yield equal results. -/
theorem createPermissionRuleDefinition_ignores_extra (R S E E' : Type)
    (x : RuleDefinitionInput R S E) (x' : RuleDefinitionInput R S E')
    (hn : x.name = x'.name) (hd : x.description = x'.description)
    (hr : x.resourceType = x'.resourceType) (hp : x.paramsSchema = x'.paramsSchema) :
    createPermissionRuleDefinition x = createPermissionRuleDefinition x' := by
  cases x
  cases x'
  cases hn; cases hd; cases hr; cases hp
  rfl

/-- Witness for C9: an input carrying an extra property and the bare
four-field input yield the same result. -/
theorem createPermissionRuleDefinition_ignores_extra_witness :
    createPermissionRuleDefinition
        { name := "n", description := "d", resourceType := "catalog-entity",
          paramsSchema := none, extra := some () } =
      createPermissionRuleDefinition plainInputExample :=
  createPermissionRuleDefinition_ignores_extra String Unit (Option Unit) Unit
    { name := "n", description := "d", resourceType := "catalog-entity",
      paramsSchema := none, extra := some () }
    plainInputExample rfl rfl rfl rfl

/-- C10: at the reference level, a call to createPermissionRuleDefinition
allocates a fresh object distinct from its argument (and from every
pre-existing object) and leaves the argument object, like the rest of the
heap, unchanged. -/
theorem createPermissionRuleDefinitionRef_frame (R S E : Type)
    (heap : List (RuleDefinitionInput R S (Option E))) (arg : Nat)
    (ha : arg < heap.length) :
    (createPermissionRuleDefinitionRef heap arg ha).2 ≠ arg ∧
    ∀ j : Nat, j < heap.length →
      (createPermissionRuleDefinitionRef heap arg ha).1[j]? = heap[j]? := by
  constructor
  · exact fun h => absurd (h ▸ ha) (lt_irrefl _)
  · intro j hj
    simp [createPermissionRuleDefinitionRef, List.getElem?_append, hj]

/-- Witness for C10 on a one-object heap with the argument at reference 0. -/
theorem createPermissionRuleDefinitionRef_frame_witness :
    (createPermissionRuleDefinitionRef [inputExample] 0 Nat.one_pos).2 ≠ 0 ∧
    ∀ j : Nat, j < ([inputExample] : List (RuleDefinitionInput String Unit (Option Unit))).length →
      (createPermissionRuleDefinitionRef [inputExample] 0 Nat.one_pos).1[j]? =
        ([inputExample] : List (RuleDefinitionInput String Unit (Option Unit)))[j]? :=
  createPermissionRuleDefinitionRef_frame String Unit Unit [inputExample] 0 Nat.one_pos

end Backstage
